import Mathlib

/-!
# Verification of the image-yinyang worker (`src/index.js`)

Shallow embedding of the asynchronous analysis pipeline of the worker:
sentence segmentation, sentiment scoring (`_text`), prompt aggregation
(`_promptFromSentences`), the vision-call retry loop, the full pipeline
(`imageAnalysisAndPrompts`), the input dedup cache (`fetchAndPersistInput`),
and the request handlers (`getReqHandler`, `postReqHandler`).

JS numbers are modelled as rationals (`ℚ`); remote collaborators (the OpenAI
vision model, the text classifier, `fetch`, the D1 database, the KV stores,
the R2 bucket and the queue) are modelled as explicit oracles / state that the
embedded functions consume and thread.
-/

deriving instance DecidableEq for Except

namespace Yinyang

/-- One labelled score in the classifier response (`ai.run` output element):
`{ label, score }`. -/
structure ClassScore where
  label : String
  score : ℚ
  deriving DecidableEq, Repr

/-- The sentiment value `_text` returns: `{ negative, positive, good }`. -/
structure Sentiment where
  negative : ℚ
  positive : ℚ
  good : Bool
  deriving DecidableEq, Repr

/-- Source `response.find(({label}) => label === lbl).score`, as an `Option`:
`none` models the `TypeError` thrown when no element carries the label. -/
def findScore (resp : List ClassScore) (lbl : String) : Option ℚ :=
  (resp.find? (fun c => c.label == lbl)).map (fun c => c.score)

/-- JS truthiness of the optional numeric `thresholdMod`
(`undefined` and `0` are falsy; all other rationals are truthy). -/
def numTruthy : Option ℚ → Bool
  | none => false
  | some q => q != 0

/-- Source `if (thresholdMod) { threshold += thresholdMod / 10.0; }`. -/
def effectiveThreshold (threshold : ℚ) (thresholdMod : Option ℚ) : ℚ :=
  if numTruthy thresholdMod then threshold + (thresholdMod.getD 0) / 10 else threshold

/-- The body of `_text` after the classifier call: adjust the threshold when
`thresholdMod` is truthy (`threshold += thresholdMod / 10.0`), then read the
`NEGATIVE` and `POSITIVE` scores and compare.  A missing label is the thrown
`TypeError`, surfaced as `.error`. -/
def _text (resp : List ClassScore) (threshold : ℚ) (thresholdMod : Option ℚ) :
    Except String Sentiment :=
  let threshold := effectiveThreshold threshold thresholdMod
  match findScore resp "NEGATIVE", findScore resp "POSITIVE" with
  | some negative, some positive =>
      .ok { negative := negative, positive := positive,
            good := decide (positive - negative > threshold) }
  | _, _ => .error "TypeError: missing NEGATIVE or POSITIVE label"

/-! ## Sentence segmentation

`content.replaceAll(/\n/g, ' ').replaceAll(/[^\w\d\.,\- ]/g, '').split('. ')`.

`String.splitOn` is replaced by a structurally recursive split over `List Char`
with identical semantics to JS `String.prototype.split` with a non-empty
string separator (leftmost, non-overlapping occurrences). -/

/-- First occurrence split: `some (before, after)` when `sep` occurs in `l`,
scanning left to right; `after` is everything past the first occurrence. -/
def splitFirst (sep : List Char) : List Char → Option (List Char × List Char)
  | [] => none
  | c :: rest =>
      if sep.isPrefixOf (c :: rest) then some ([], (c :: rest).drop sep.length)
      else (splitFirst sep rest).map (fun p => (c :: p.1, p.2))

/-- Fuelled splitting on a separator; with `fuel ≥ l.length + 1` and a
non-empty separator this is JS `l.split(sep)`. -/
def splitOnL (sep : List Char) : Nat → List Char → List (List Char)
  | 0, l => [l]
  | fuel + 1, l =>
      match splitFirst sep l with
      | none => [l]
      | some (a, b) => a :: splitOnL sep fuel b

/-- JS `s.split(sep)` for a non-empty string separator. -/
def jsSplit (sep : String) (s : String) : List String :=
  (splitOnL sep.data (s.data.length + 1) s.data).map String.mk

/-- Character class kept by the strip `replaceAll(/[^\w\d\.,\- ]/g, '')`:
`\w` is `[A-Za-z0-9_]`, so the kept set is ASCII letters, digits,
underscore, `.`, `,`, `-` and space. -/
def keepChar (c : Char) : Bool :=
  c.isAlpha || c.isDigit || c == '_' || c == '.' || c == ',' || c == '-' || c == ' '

/-- Source `content.replaceAll(/\n/g, ' ').replaceAll(/[^\w\d\.,\- ]/g, '')`. -/
def normalize (content : String) : String :=
  String.mk (((content.data.map (fun c => if c == '\n' then ' ' else c)).filter keepChar))

/-- The worker's sentence segmentation: normalize, then split on `". "`. -/
def segment (content : String) : List String :=
  jsSplit ". " (normalize content)

/-! ### The segmentation algorithm as the spec words it (for C4)

"collapse all whitespace to single spaces, strip every character outside the
set {letters, digits, '.', ',', '-', space}, then split on '. '". -/

/-- Whitespace for the spec's "collapse all whitespace". -/
def isWs (c : Char) : Bool :=
  c == ' ' || c == '\n' || c == '\t' || c == '\r'

/-- Collapse every maximal run of whitespace to a single space. -/
def collapseWs : List Char → List Char
  | [] => []
  | [c] => [if isWs c then ' ' else c]
  | c :: d :: rest =>
      if isWs c && isWs d then collapseWs (d :: rest)
      else (if isWs c then ' ' else c) :: collapseWs (d :: rest)

/-- The spec's character allow-list: letters, digits, `.`, `,`, `-`, space
(no underscore). -/
def keepCharSpec (c : Char) : Bool :=
  c.isAlpha || c.isDigit || c == '.' || c == ',' || c == '-' || c == ' '

/-- Segmentation exactly as claim C4 words it: collapse all whitespace to
single spaces, strip characters outside the spec's allow-list, split on
`". "`. -/
def segmentSpec (content : String) : List String :=
  jsSplit ". " (String.mk ((collapseWs content.data).filter keepCharSpec))

/-- The character allow-list as the amended claim words it, phrased over
codepoints: ASCII letters (65–90 and 97–122), ASCII digits (48–57),
underscore, `.`, `,`, `-` and space. -/
def keepCharAmended (c : Char) : Bool :=
  (65 ≤ c.toNat && c.toNat ≤ 90) || (97 ≤ c.toNat && c.toNat ≤ 122) ||
  (48 ≤ c.toNat && c.toNat ≤ 57) ||
  c == '_' || c == '.' || c == ',' || c == '-' || c == ' '

/-- Segmentation as the amended claim words it: replace each newline with a
single space (no other whitespace handling: tabs and the like are simply
stripped, runs of spaces are kept), strip every character outside the
amended allow-list, then split on the literal `". "`. -/
def segmentAmended (content : String) : List String :=
  jsSplit ". "
    (String.mk ((content.data.map (fun c => if c == '\n' then ' ' else c)).filter
      keepCharAmended))

/-! ## Vision call with retry

```js
let retries = 3; let estr;
while (retries > 0) {
  try { response = await openai.chat.completions.create(...); }
  catch (e) { retries--; estr = `OpenAI failed: ${e}${retries > 0 ? ...}`; }
}
```
The remote model is an oracle: a list of outcomes, one consumed per loop
iteration. -/

/-- A successful chat completion: `choices[0].message.content` (possibly
null), `model` and `usage.total_tokens`. -/
structure VisionSuccess where
  content : Option String
  model : String
  totalTokens : Nat
  deriving DecidableEq, Repr

/-- Outcome of one `openai.chat.completions.create` invocation. -/
inductive VisionOutcome
  | failure (msg : String)
  | success (resp : VisionSuccess)
  deriving DecidableEq, Repr

/-- Loop state: `retries`, the (last) successful `response`, and `estr`. -/
structure RetrySt where
  retries : Nat
  response : Option VisionSuccess
  estr : Option String
  deriving DecidableEq, Repr

/-- Initial loop state (`retries = 3`, nothing assigned yet). -/
def retryInit : RetrySt := ⟨3, none, none⟩

/-- One loop iteration: a success assigns `response` (and nothing else);
a failure decrements `retries` and records `estr`. -/
def retryStep (st : RetrySt) : VisionOutcome → RetrySt
  | .success r => { st with response := some r }
  | .failure msg =>
      let retries := st.retries - 1
      { retries := retries,
        response := st.response,
        estr := some ("OpenAI failed: " ++ msg ++
          (if retries > 0 then " (" ++ toString retries ++ " retries remain)" else "")) }

/-- Run `while (retries > 0)` against a finite trace of model outcomes.
`some st` means the loop exited (condition became false) with state `st`;
`none` means the trace was exhausted with the loop still running. -/
def runRetry : RetrySt → List VisionOutcome → Option RetrySt
  | st, [] => if st.retries = 0 then some st else none
  | st, o :: rest => if st.retries = 0 then some st else runRetry (retryStep st o) rest

/-! ## Sentence scoring and aggregation -/

/-- One element of the `sentences` array: `{ sentence, sentiment }`. -/
structure SentenceRec where
  sentence : String
  sentiment : Sentiment
  deriving DecidableEq, Repr

/-- Scoring one sentence: the classifier call `ai.run(model, {text})` is an
oracle (`none` models the call rejecting), then `_text`'s label lookup. -/
def scoreSentence (classify : String → String → Option (List ClassScore))
    (model : String) (threshold : ℚ) (thresholdMod : Option ℚ)
    (sentence : String) : Except String SentenceRec :=
  match classify model sentence with
  | none => .error "classifier invocation failed"
  | some resp => (_text resp threshold thresholdMod).map (fun s => ⟨sentence, s⟩)

/-- Source `Promise.all` over the mapped scoring calls: the first error aborts the
whole aggregation, results of the remaining calls are discarded. -/
def scoreAll (classify : String → String → Option (List ClassScore))
    (model : String) (threshold : ℚ) (thresholdMod : Option ℚ) :
    List String → Except String (List SentenceRec)
  | [] => .ok []
  | f :: rest =>
    match scoreSentence classify model threshold thresholdMod f with
    | .error e => .error e
    | .ok r =>
      match scoreAll classify model threshold thresholdMod rest with
      | .error e => .error e
      | .ok rs => .ok (r :: rs)

/-- Source `_promptFromSentences(sentences, condFunc)`: filter by
`condFunc(sentiment.good)`, project `sentence`, `join('. ')`. -/
def _promptFromSentences (sentences : List SentenceRec) (condFunc : Bool → Bool) : String :=
  String.intercalate ". "
    ((sentences.filter (fun s => condFunc s.sentiment.good)).map (fun s => s.sentence))

/-- One half of `results`: `{ prompt, imageBucketId: null }`. -/
structure BucketResult where
  prompt : String
  imageBucketId : Option String
  deriving DecidableEq, Repr

/-- The `results` object. -/
structure ResultsRec where
  good : BucketResult
  bad : BucketResult
  deriving DecidableEq, Repr

/-- The aggregation step building `results` from the scored sentences. -/
def aggregateResults (sentences : List SentenceRec) : ResultsRec :=
  { good := ⟨_promptFromSentences sentences (fun good => good), none⟩,
    bad := ⟨_promptFromSentences sentences (fun good => !good), none⟩ }

/-! ## The request record and the world (KV ledger + queue) -/

/-- The `input` field of the response object. -/
structure InputRec where
  url : String
  originalUrl : String
  threshold : ℚ
  thresholdMod : Option ℚ
  deriving DecidableEq, Repr

/-- The `meta` field of the response object. -/
structure MetaRec where
  openai_tokens_used : Nat
  openai_full_model_used : String
  openai_prompt : String
  text_classification_model_used : String
  deriving DecidableEq, Repr

/-- The `responseObj` as assembled by `imageAnalysisAndPrompts` (no `status`). -/
structure ReqRecord where
  input : InputRec
  createdTimeUnixMs : Nat
  requestorIp : Option String
  requestId : String
  response : String
  sentences : List SentenceRec
  results : ResultsRec
  meta : MetaRec
  deriving DecidableEq, Repr

/-- What is written to `RequestsKVStore`: `{...responseObj, status}`. -/
structure StoredRecord where
  record : ReqRecord
  status : String
  deriving DecidableEq, Repr

/-- Observable external state touched by the pipeline: the request ledger
(`RequestsKVStore`, as the sequence of puts) and the dispatch queue
(`GENIMG_REQ_QUEUE`, as the sequence of sent request ids). -/
structure World where
  ledger : List (String × StoredRecord)
  queue : List String
  deriving DecidableEq, Repr

/-- KV read with last-write-wins semantics over the sequence of puts. -/
def kvLookup (ledger : List (String × StoredRecord)) (id : String) : Option StoredRecord :=
  (ledger.reverse.find? (fun p => p.1 == id)).map (fun p => p.2)

/-! ## The pipeline `imageAnalysisAndPrompts` -/

/-- The `ConfigKVStore` values the pipeline reads. -/
structure Config where
  prompt : String
  detail : String
  ittModel : String
  goodThreshold : ℚ
  textClassModel : String
  deriving DecidableEq, Repr

/-- The `X-Yinyang-OpenAI-Key` resolution: a header value on the
`USE_BUILTIN_OPENAI_KEY` allow-list is replaced by `env.OPENAI_KEY`
(`headers.get` yields null when absent, and a JSON allow-list may
contain null, hence `Option String` on both sides). -/
def resolveOpenaiKey (hdrKey : Option String) (allowBuiltIns : List (Option String))
    (envKey : String) : Option String :=
  if allowBuiltIns.contains hdrKey then some envKey else hdrKey

/-- JS falsiness of the key (`!openaiKey`): null or the empty string. -/
def keyFalsy : Option String → Bool
  | none => true
  | some s => s == ""

/-- The result the pipeline hands back to the router. -/
inductive PipeResult
  | unauthorized                      -- `new Response(null, {status: 401})`
  | modelUnavailable (estr : String)  -- `new Response(estr, {status: 500})`
  | emptyModelOutput                  -- `new Response(null, {status: 418})`
  | scoringFailed (estr : String)     -- `new Response(estr, {status: 500})`
  | ok (record : ReqRecord)           -- `Response.json(responseObj)`
  | hang                              -- retry loop still running when the trace ended
  deriving DecidableEq, Repr

/-- Source `imageAnalysisAndPrompts(requestId, request, env, ai, url, originalUrl)`.
Request headers, environment bindings, config reads, the vision-model
outcomes, the classifier, and the clock are explicit parameters; the returned
`World` captures the ledger puts and queue sends performed. -/
def imageAnalysisAndPrompts (requestId : String)
    (hdrKey : Option String) (allowBuiltIns : List (Option String)) (envKey : String)
    (cfg : Config) (thresholdModHdr : Option ℚ)
    (outcomes : List VisionOutcome)
    (classify : String → String → Option (List ClassScore))
    (now : Nat) (requestorIp : Option String)
    (url originalUrl : String) (w : World) : PipeResult × World :=
  if keyFalsy (resolveOpenaiKey hdrKey allowBuiltIns envKey) then (.unauthorized, w)
  else
    match runRetry retryInit outcomes with
    | none => (.hang, w)
    | some st =>
      match st.response with
      | none => (.modelUnavailable (st.estr.getD ""), w)
      | some vs =>
        match vs.content with
        | none => (.emptyModelOutput, w)
        | some content =>
          if content = "" then (.emptyModelOutput, w)
          else
            match scoreAll classify cfg.textClassModel cfg.goodThreshold thresholdModHdr
                (segment content) with
            | .error e => (.scoringFailed ("Sentiment failed: " ++ e), w)
            | .ok sentences =>
              let responseObj : ReqRecord :=
                { input := ⟨url, originalUrl, cfg.goodThreshold, thresholdModHdr⟩,
                  createdTimeUnixMs := now,
                  requestorIp := requestorIp,
                  requestId := requestId,
                  response := content,
                  sentences := sentences,
                  results := aggregateResults sentences,
                  meta := ⟨vs.totalTokens, vs.model, cfg.prompt, cfg.textClassModel⟩ }
              (.ok responseObj,
               { ledger := w.ledger ++ [(requestId, ⟨responseObj, "pending"⟩)],
                 queue := w.queue ++ [requestId] })

/-! ## Input dedup cache `fetchAndPersistInput` -/

/-- Model of the WHATWG `URL` constructor's `origin`, restricted to
hierarchical `scheme://host` URLs (the only shape this system handles):
a scheme (a letter followed by letters, digits, `+`, `-`, `.`), then
`://`, then a non-empty host read up to `/`, `?` or `#`; scheme and host
are lowercased.  Every other string is modelled as the constructor
throwing (`none`). -/
def isSchemeChar (c : Char) : Bool :=
  c.isAlpha || c.isDigit || c == '+' || c == '-' || c == '.'

/-- Split a candidate URL at the first `:`, validating the scheme chars. -/
def splitAtColon : List Char → Option (List Char × List Char)
  | [] => none
  | c :: rest =>
      if c == ':' then some ([], rest)
      else if isSchemeChar c then (splitAtColon rest).map (fun p => (c :: p.1, p.2))
      else none

/-- The `origin` of a parsed URL, or `none` when the constructor throws. -/
def parseOrigin (s : String) : Option String :=
  match splitAtColon s.data with
  | none => none
  | some (scheme, rest) =>
    match scheme with
    | [] => none
    | c0 :: _ =>
      if !c0.isAlpha then none
      else
        match rest with
        | '/' :: '/' :: hostRest =>
          let host := hostRest.takeWhile (fun c => c != '/' && c != '?' && c != '#')
          if host = [] then none
          else some (String.mk (scheme.map Char.toLower) ++ "://" ++
                     String.mk (host.map Char.toLower))
        | _ => none

/-- This system's own storage origin. -/
def ownOrigin : String := "https://inputs.yinyang.computerpho.be"

/-- One row of the D1 `Inputs` table: `(SourceUrl, ContentType, BucketId)`. -/
structure InputRow where
  sourceUrl : String
  contentType : String
  bucketId : String
  deriving DecidableEq, Repr

/-- Side-effect counters for the dedup path: `fetch` calls, R2 `put` calls,
D1 `insert` statements. -/
structure Effects where
  fetches : Nat
  persists : Nat
  inserts : Nat
  deriving DecidableEq, Repr

/-- No side effects. -/
def Effects.zero : Effects := ⟨0, 0, 0⟩

/-- Outcome of `fetch(imageUrl)`: a non-ok status, or an ok response with an
optional `content-type` header. -/
inductive FetchResult
  | httpError (status : Nat)
  | okResp (contentType : Option String)
  deriving DecidableEq, Repr

/-- The collaborators `fetchAndPersistInput` consults: the network, the
nanoid generator, and the success flags of the D1 select, the D1 insert and
the R2 put (`etag && size` truthiness). -/
structure DedupOracle where
  fetch : String → FetchResult
  freshId : String
  checkOk : Bool
  insertOk : Bool
  putOk : Bool

/-- Source `fetchAndPersistInput(env, imageUrl)`.  Returns the function's result
(`.ok (some url)` a canonical reference, `.ok none` the JS `undefined`
failure, `.error` a thrown exception) together with the final `Inputs`
table and the side effects performed. -/
def fetchAndPersistInput (st : List InputRow) (o : DedupOracle) (imageUrl : String) :
    Except String (Option String) × List InputRow × Effects :=
  match parseOrigin imageUrl with
  | none => (.error "TypeError: Invalid URL", st, Effects.zero)
  | some origin =>
    if origin = ownOrigin then (.ok (some imageUrl), st, Effects.zero)
    else if !o.checkOk then (.ok none, st, Effects.zero)
    else
      match st.find? (fun r => r.sourceUrl == imageUrl) with
      | some row => (.ok (some (ownOrigin ++ "/" ++ row.bucketId)), st, Effects.zero)
      | none =>
        match o.fetch imageUrl with
        | .httpError _ => (.ok none, st, ⟨1, 0, 0⟩)
        | .okResp none => (.ok none, st, ⟨1, 0, 0⟩)
        | .okResp (some cType) =>
          let bucketId := o.freshId ++ "." ++ ((jsSplit "/" cType).getLastD "")
          let st' := if o.insertOk then st ++ [⟨imageUrl, cType, bucketId⟩] else st
          if o.insertOk && o.putOk then
            (.ok (some (ownOrigin ++ "/" ++ bucketId)), st', ⟨1, 1, 1⟩)
          else
            (.ok none, st', ⟨1, 1, 1⟩)

/-! ## The HTTP handlers -/

/-- What `getReqHandler` returns to the client. -/
inductive PollResult
  | notFound                  -- 404
  | stillPending              -- 202
  | record (r : StoredRecord) -- `Response.json(reqObj)`
  deriving DecidableEq, Repr

/-- Source `getReqHandler(env, request)`: `checkReqId = pathname.slice(1)`; empty id
is 404; a missing record (`JSON.parse(null)` is null) or a record with
`status === 'pending'` is 202; otherwise the stored record is returned. -/
def getReqHandler (ledger : List (String × StoredRecord)) (pathname : String) :
    PollResult :=
  let checkReqId := String.mk (pathname.data.drop 1)
  if checkReqId = "" then .notFound
  else
    match kvLookup ledger checkReqId with
    | none => .stillPending
    | some r => if r.status == "pending" then .stillPending else .record r

/-- Source `postReqHandler(env, request)`: resolve the body through the dedup cache
(exceptions propagate), fall back to the raw body on a resolution failure,
then run the pipeline.  `newReqId` is the generated `nanoid(...)`. -/
def postReqHandler (newReqId body : String)
    (hdrKey : Option String) (allowBuiltIns : List (Option String)) (envKey : String)
    (cfg : Config) (thresholdModHdr : Option ℚ)
    (outcomes : List VisionOutcome)
    (classify : String → String → Option (List ClassScore))
    (now : Nat) (requestorIp : Option String)
    (st : List InputRow) (o : DedupOracle) (w : World) :
    Except String (PipeResult × World) × List InputRow × Effects :=
  match fetchAndPersistInput st o body with
  | (.error e, st', eff) => (.error e, st', eff)
  | (.ok resolved, st', eff) =>
    let ourUrl := resolved.getD body
    (.ok (imageAnalysisAndPrompts newReqId hdrKey allowBuiltIns envKey cfg
        thresholdModHdr outcomes classify now requestorIp ourUrl body w), st', eff)

/-- What the worker's `fetch` export produces for a submission after
`router.handle(request).catch(ourError)`: a handler rejection is caught and
turned into a generic `error(...)` response. -/
inductive RouterOutcome
  | response (r : PipeResult)
  | caughtError
  deriving DecidableEq, Repr

/-- The submission path at the router level: run `postReqHandler`, catching
any rejection into the generic error response. -/
def handleSubmission (newReqId body : String)
    (hdrKey : Option String) (allowBuiltIns : List (Option String)) (envKey : String)
    (cfg : Config) (thresholdModHdr : Option ℚ)
    (outcomes : List VisionOutcome)
    (classify : String → String → Option (List ClassScore))
    (now : Nat) (requestorIp : Option String)
    (st : List InputRow) (o : DedupOracle) (w : World) :
    RouterOutcome × List InputRow × Effects × World :=
  match postReqHandler newReqId body hdrKey allowBuiltIns envKey cfg thresholdModHdr
      outcomes classify now requestorIp st o w with
  | (.error _, st', eff) => (.caughtError, st', eff, w)
  | (.ok (res, w'), st', eff) => (.response res, st', eff, w')

/-! ## Concrete scenario used by witnesses and counterexamples -/

/-- A narrative whose two fragments score clearly good and clearly bad. -/
def exContent : String := "Good day. Bad day"

/-- Classifier oracle for the scenario: a clearly positive response for the
first fragment, a clearly negative one for the second. -/
def exClassify : String → String → Option (List ClassScore) := fun _ s =>
  if s = "Good day" then some [⟨"NEGATIVE", 0⟩, ⟨"POSITIVE", 1⟩]
  else if s = "Bad day" then some [⟨"NEGATIVE", 1⟩, ⟨"POSITIVE", 0⟩]
  else none

/-- Vision outcomes for the scenario: one success, then three failures (the
only way the source's retry loop can exit with a usable response). -/
def exOutcomes : List VisionOutcome :=
  [.success ⟨some exContent, "gpt-4-vision-0613", 1234⟩,
   .failure "boomA", .failure "boomB", .failure "boomC"]

/-- Configuration for the scenario. -/
def exCfg : Config := ⟨"Describe the image.", "low", "gpt-4-vision", 0, "distilbert-sst-2"⟩

/-- The scored first sentence of the scenario. -/
def exSent1 : SentenceRec := ⟨"Good day", ⟨0, 1, true⟩⟩

/-- The scored second sentence of the scenario. -/
def exSent2 : SentenceRec := ⟨"Bad day", ⟨1, 0, false⟩⟩

/-- The response object the scenario's pipeline run assembles. -/
def exRecord : ReqRecord :=
  { input := ⟨"https://inputs.yinyang.computerpho.be/img.png",
      "https://example.com/cat.png", 0, none⟩,
    createdTimeUnixMs := 1700000000000,
    requestorIp := some "203.0.113.7",
    requestId := "req1",
    response := exContent,
    sentences := [exSent1, exSent2],
    results := aggregateResults [exSent1, exSent2],
    meta := ⟨1234, "gpt-4-vision-0613", "Describe the image.", "distilbert-sst-2"⟩ }

/-- A finalized (non-pending) stored record for poll-handler witnesses. -/
def exStored : StoredRecord := ⟨exRecord, "complete"⟩

/-- Dedup oracle for the scenario: fetches succeed with `image/png`, the
generated id is fixed, and all three stores succeed. -/
def exOracle : DedupOracle :=
  { fetch := fun _ => .okResp (some "image/png"),
    freshId := "fresh42", checkOk := true, insertOk := true, putOk := true }

/-- A classifier oracle whose response lacks the `NEGATIVE` label for the
first fragment — a scoring failure. -/
def exBadClassify : String → String → Option (List ClassScore) := fun _ s =>
  if s = "Good day" then some [⟨"POSITIVE", 1⟩] else none

/-! # Theorems for the claims -/

/-- The truthiness-guarded threshold update of `_text` agrees with the spec's
`threshold + (thresholdModifier ?? 0) / 10` formula for every modifier. -/
theorem effectiveThreshold_eq (threshold : ℚ) (thresholdMod : Option ℚ) :
    effectiveThreshold threshold thresholdMod = threshold + (thresholdMod.getD 0) / 10 := by
  cases thresholdMod with
  | none => simp [effectiveThreshold, numTruthy]
  | some q =>
    by_cases hq : q = 0
    · simp [effectiveThreshold, numTruthy, hq]
    · simp [effectiveThreshold, numTruthy, hq]

/-- C5: for every scored sentence, `good == (positive - negative >
effectiveThreshold)` where `effectiveThreshold = threshold +
(thresholdModifier ?? 0) / 10`; an absent modifier leaves the base threshold
unchanged. -/
theorem C5_good_flag (resp : List ClassScore) (threshold : ℚ)
    (thresholdMod : Option ℚ) (s : Sentiment)
    (h : _text resp threshold thresholdMod = .ok s) :
    s.good = decide (s.positive - s.negative > threshold + (thresholdMod.getD 0) / 10) := by
  unfold _text at h
  rcases hn : findScore resp "NEGATIVE" with _ | neg
  · simp [hn] at h
  · rcases hp : findScore resp "POSITIVE" with _ | pos
    · simp [hn, hp] at h
    · simp only [hn, hp, Except.ok.injEq] at h
      subst h
      dsimp only
      exact decide_eq_decide.mpr (by rw [effectiveThreshold_eq])

/-- C5 witness: a concrete classifier response instantiating the theorem. -/
theorem C5_good_flag_witness :
    (⟨0, 1, true⟩ : Sentiment).good
      = decide ((1 : ℚ) - 0 > 0 + ((none : Option ℚ).getD 0) / 10) :=
  C5_good_flag [⟨"NEGATIVE", 0⟩, ⟨"POSITIVE", 1⟩] 0 none ⟨0, 1, true⟩
    (by norm_num [_text, findScore, effectiveThreshold, numTruthy, List.find?,
      show (("NEGATIVE" : String) == "POSITIVE") = false from rfl,
      show (("NEGATIVE" : String) == "NEGATIVE") = true from rfl])

/-- C4 counterexample: the code keeps underscores (JS `\w` includes `_`) and
replaces only newlines by spaces (a tab is stripped, not collapsed), so the
code's segmentation differs from the claimed normalize-then-split algorithm
on this narrative. -/
theorem C4_counterexample : segment "a_b.\tc" ≠ segmentSpec "a_b.\tc" := by decide

/-- C4 amended: segmentation equals exactly: replace each newline by one
space (other whitespace is stripped, not collapsed; runs of spaces survive),
strip every character outside {ASCII letters, digits, underscore, '.', ',',
'-', space}, then split on the literal '. '. -/
theorem C4_amended_segmentation (content : String) :
    segment content = segmentAmended content := rfl

/-- Helper for C2: a successful invocation does not decrement `retries` and
does not leave the loop, so the loop survives any all-success trace. -/
theorem runRetry_success_none (vs : VisionSuccess) :
    ∀ (n : Nat) (st : RetrySt), st.retries ≠ 0 →
      runRetry st (List.replicate n (.success vs)) = none := by
  intro n
  induction n with
  | zero => intro st h; simp [List.replicate, runRetry, h]
  | succ k ih =>
    intro st h
    simp only [List.replicate, runRetry, if_neg h]
    exact ih { st with response := some vs } h

/-- C2 (code bug): the retry loop's body never breaks after a successful
vision call, so an all-success outcome sequence of any length leaves the
loop still running (the model is re-invoked without bound), contradicting
the claimed 3-invocation bound and termination; only three failures make it
exit, in which case the last error message is preserved. -/
theorem C2_retry_loop_bug :
    (∀ (n : Nat) (vs : VisionSuccess),
        runRetry retryInit (List.replicate n (.success vs)) = none)
    ∧ runRetry retryInit [.failure "boom1", .failure "boom2", .failure "boom3"]
        = some ⟨0, none, some "OpenAI failed: boom3"⟩ := by
  constructor
  · intro n vs
    exact runRetry_success_none vs n retryInit (by decide)
  · decide

/-- C3 counterexample: polling an identifier that was never submitted does
not return "not found" — the handler answers 202/"still pending" exactly as
for a submitted-but-unfinalized identifier. -/
theorem C3_counterexample :
    getReqHandler [] "/never-submitted" = .stillPending
    ∧ (PollResult.stillPending ≠ .notFound) := ⟨rfl, by decide⟩

/-- C3 amended: an empty identifier yields 404; an identifier with no ledger
entry (never submitted) or with a `pending` entry yields 202 "still
pending"; a finalized (non-pending) entry yields the stored record in full,
and repeated polls of an unchanged ledger return the same record. -/
theorem C3_poll_behaviour (ledger : List (String × StoredRecord)) (pathname : String) :
    (String.mk (pathname.data.drop 1) = "" → getReqHandler ledger pathname = .notFound)
    ∧ (String.mk (pathname.data.drop 1) ≠ "" →
        kvLookup ledger (String.mk (pathname.data.drop 1)) = none →
        getReqHandler ledger pathname = .stillPending)
    ∧ (∀ r, String.mk (pathname.data.drop 1) ≠ "" →
        kvLookup ledger (String.mk (pathname.data.drop 1)) = some r →
        r.status = "pending" → getReqHandler ledger pathname = .stillPending)
    ∧ (∀ r, String.mk (pathname.data.drop 1) ≠ "" →
        kvLookup ledger (String.mk (pathname.data.drop 1)) = some r →
        r.status ≠ "pending" → getReqHandler ledger pathname = .record r) := by
  refine ⟨?_, ?_, ?_, ?_⟩
  · intro h
    rw [List.drop_one] at h
    unfold getReqHandler
    simp [h]
  · intro h hk
    rw [List.drop_one] at h hk
    unfold getReqHandler
    simp [h, hk]
  · intro r h hk hs
    rw [List.drop_one] at h hk
    unfold getReqHandler
    simp [h, hk, hs]
  · intro r h hk hs
    rw [List.drop_one] at h hk
    unfold getReqHandler
    simp [h, hk, hs]

/-- C3 witness: a finalized record is returned in full for its identifier. -/
theorem C3_poll_behaviour_witness :
    getReqHandler [("done1", exStored)] "/done1" = .record exStored :=
  ((C3_poll_behaviour [("done1", exStored)] "/done1").2.2.2) exStored
    (by decide) (by decide) (by decide)

/-- C6: input resolution is idempotent — after a successful resolution of a
source URL, resolving the same URL again (with a working cache query)
returns the identical canonical reference via the own-domain short-circuit
or an exact-string cache hit, performs no fetch, no persist and no insert,
and leaves the table unchanged. -/
theorem C6_resolution_idempotent (st : List InputRow) (o o' : DedupOracle)
    (url r : String) (st' : List InputRow) (eff : Effects)
    (h : fetchAndPersistInput st o url = (.ok (some r), st', eff))
    (hchk : o'.checkOk = true) :
    fetchAndPersistInput st' o' url = (.ok (some r), st', Effects.zero) := by
  unfold fetchAndPersistInput at h ⊢
  rcases hp : parseOrigin url with _ | origin
  · rw [hp] at h
    simp at h
  · rw [hp] at h
    dsimp only at h ⊢
    by_cases horig : origin = ownOrigin
    · rw [if_pos horig] at h ⊢
      simp only [Prod.mk.injEq, Except.ok.injEq, Option.some.injEq] at h
      obtain ⟨hr, hst, _⟩ := h
      rw [hr]
    · rw [if_neg horig] at h ⊢
      rcases hc : o.checkOk with _ | _
      · rw [hc] at h
        exact absurd h (by simp)
      · rw [hc] at h
        simp only [Bool.not_true, Bool.false_eq_true, if_false] at h
        rw [hchk]
        simp only [Bool.not_true, Bool.false_eq_true, if_false]
        rcases hfind : st.find? (fun row => row.sourceUrl == url) with _ | row <;>
          rw [hfind] at h
        · rcases hfetch : o.fetch url with status | ct <;> rw [hfetch] at h
          · exact absurd h (by simp)
          · rcases ct with _ | cType
            · exact absurd h (by simp)
            · rcases hio : o.insertOk with _ | _ <;> rw [hio] at h
              · exact absurd h (by simp)
              · rcases hpo : o.putOk with _ | _ <;> rw [hpo] at h
                · exact absurd h (by simp)
                · simp only [Bool.and_self, if_true, Prod.mk.injEq, Except.ok.injEq,
                    Option.some.injEq, if_pos rfl] at h
                  obtain ⟨hr, hst, _⟩ := h
                  rw [← hst, ← hr]
                  simp [List.find?_append, hfind]
        · simp only [Prod.mk.injEq, Except.ok.injEq, Option.some.injEq] at h
          obtain ⟨hr, hst, _⟩ := h
          rw [← hst]
          simp [hfind, hr]

/-- C6 witness: a second resolution of a just-persisted URL is an exact
cache hit returning the same canonical reference with zero effects. -/
theorem C6_resolution_idempotent_witness :
    fetchAndPersistInput
        [⟨"https://example.com/cat.png", "image/png", "fresh42.png"⟩]
        exOracle "https://example.com/cat.png"
      = (.ok (some "https://inputs.yinyang.computerpho.be/fresh42.png"),
         [⟨"https://example.com/cat.png", "image/png", "fresh42.png"⟩],
         Effects.zero) :=
  C6_resolution_idempotent [] exOracle exOracle "https://example.com/cat.png"
    "https://inputs.yinyang.computerpho.be/fresh42.png"
    [⟨"https://example.com/cat.png", "image/png", "fresh42.png"⟩] ⟨1, 1, 1⟩
    (by decide) rfl

/-- Helper: when the URL constructor does not throw, `fetchAndPersistInput`
returns normally (never rejects), whatever the oracle does. -/
theorem fetchAndPersistInput_ok (st : List InputRow) (o : DedupOracle)
    (url origin : String) (hp : parseOrigin url = some origin) :
    ∃ res st' eff, fetchAndPersistInput st o url = (.ok res, st', eff) := by
  unfold fetchAndPersistInput
  rw [hp]
  dsimp only
  repeat first
  | exact ⟨_, _, _, rfl⟩
  | split

/-- C10: a submission body that is not a syntactically valid absolute URL
makes the URL constructor throw before any cache lookup, fetch or persist
(the dedup state, effects and world are untouched), and the rejection
propagates through the submission handler to the router's catch, which
produces the generic error response — the documented fall-back-to-original
degraded mode is never reached. -/
theorem C10_invalid_url_throws (newReqId body : String)
    (hdrKey : Option String) (allowBuiltIns : List (Option String)) (envKey : String)
    (cfg : Config) (thresholdModHdr : Option ℚ) (outcomes : List VisionOutcome)
    (classify : String → String → Option (List ClassScore)) (now : Nat)
    (ip : Option String) (st : List InputRow) (o : DedupOracle) (w : World)
    (hbad : parseOrigin body = none) :
    fetchAndPersistInput st o body = (.error "TypeError: Invalid URL", st, Effects.zero)
    ∧ handleSubmission newReqId body hdrKey allowBuiltIns envKey cfg thresholdModHdr
        outcomes classify now ip st o w = (.caughtError, st, Effects.zero, w) := by
  have h1 : fetchAndPersistInput st o body
      = (.error "TypeError: Invalid URL", st, Effects.zero) := by
    unfold fetchAndPersistInput
    rw [hbad]
  refine ⟨h1, ?_⟩
  unfold handleSubmission postReqHandler
  rw [h1]

/-- C10 witness: the relative string "not a url" throws. -/
theorem C10_invalid_url_throws_witness :
    fetchAndPersistInput [] exOracle "not a url"
        = (.error "TypeError: Invalid URL", [], Effects.zero)
    ∧ handleSubmission "req1" "not a url" (some "sk-key") [] "env-key" exCfg none
        exOutcomes exClassify 1700000000000 (some "203.0.113.7") [] exOracle ⟨[], []⟩
      = (.caughtError, [], Effects.zero, ⟨[], []⟩) :=
  C10_invalid_url_throws "req1" "not a url" (some "sk-key") [] "env-key" exCfg none
    exOutcomes exClassify 1700000000000 (some "203.0.113.7") [] exOracle ⟨[], []⟩
    (by decide)

/-- C7 counterexample: a submission without any credential still performs
one fetch, one blob persist and one dedup insert before the 401 is
produced, because the submission path resolves the input before the
authorization check. -/
theorem C7_counterexample :
    handleSubmission "req1" "https://example.com/cat.png" none [] "env-key" exCfg none
        exOutcomes exClassify 1700000000000 (some "203.0.113.7") [] exOracle ⟨[], []⟩
      = (.response .unauthorized,
         [⟨"https://example.com/cat.png", "image/png", "fresh42.png"⟩],
         ⟨1, 1, 1⟩, ⟨[], []⟩)
    ∧ (⟨1, 1, 1⟩ : Effects) ≠ Effects.zero := by decide

/-- C7 amended: a submission lacking a usable credential fails with 401 and
the pipeline performs no ledger write and no enqueue (the world is
unchanged); however the submission path runs input resolution before the
authorization check, so fetch/persist/insert side effects may already have
occurred. -/
theorem C7_unauthorized_no_ledger_write (newReqId body : String)
    (hdrKey : Option String) (allowBuiltIns : List (Option String)) (envKey : String)
    (cfg : Config) (thresholdModHdr : Option ℚ) (outcomes : List VisionOutcome)
    (classify : String → String → Option (List ClassScore)) (now : Nat)
    (ip : Option String) (st : List InputRow) (o : DedupOracle) (w : World)
    (origin : String) (hparse : parseOrigin body = some origin)
    (hkey : keyFalsy (resolveOpenaiKey hdrKey allowBuiltIns envKey) = true) :
    ∃ st' eff, handleSubmission newReqId body hdrKey allowBuiltIns envKey cfg
        thresholdModHdr outcomes classify now ip st o w
      = (.response .unauthorized, st', eff, w) := by
  obtain ⟨res, st', eff, hfp⟩ := fetchAndPersistInput_ok st o body origin hparse
  refine ⟨st', eff, ?_⟩
  unfold handleSubmission postReqHandler
  rw [hfp]
  unfold imageAnalysisAndPrompts
  simp [hkey]

/-- C7 witness: a concrete unauthorized submission reaches the 401 with the
world unchanged. -/
theorem C7_unauthorized_no_ledger_write_witness :
    ∃ st' eff, handleSubmission "req1" "https://example.com/cat.png" none [] ""
        exCfg none exOutcomes exClassify 1700000000000 (some "203.0.113.7") []
        exOracle ⟨[], []⟩
      = (.response .unauthorized, st', eff, ⟨[], []⟩) :=
  C7_unauthorized_no_ledger_write "req1" "https://example.com/cat.png" none [] ""
    exCfg none exOutcomes exClassify 1700000000000 (some "203.0.113.7") []
    exOracle ⟨[], []⟩ "https://example.com" (by decide) (by decide)

/-- Inversion of a successful pipeline run: the returned record carries the
requested id, its `results` are the aggregation of its `sentences`, its
`input` echoes the call, and the final world is the initial one plus exactly
one `pending` ledger put followed by one queue send. -/
theorem pipeline_ok_inv (requestId : String) (hdrKey : Option String)
    (allowBuiltIns : List (Option String)) (envKey : String) (cfg : Config)
    (thresholdModHdr : Option ℚ) (outcomes : List VisionOutcome)
    (classify : String → String → Option (List ClassScore)) (now : Nat)
    (ip : Option String) (url originalUrl : String) (w : World)
    (record : ReqRecord) (w' : World)
    (h : imageAnalysisAndPrompts requestId hdrKey allowBuiltIns envKey cfg
        thresholdModHdr outcomes classify now ip url originalUrl w = (.ok record, w')) :
    record.requestId = requestId
    ∧ record.results = aggregateResults record.sentences
    ∧ record.input = ⟨url, originalUrl, cfg.goodThreshold, thresholdModHdr⟩
    ∧ w' = ⟨w.ledger ++ [(requestId, ⟨record, "pending"⟩)], w.queue ++ [requestId]⟩ := by
  unfold imageAnalysisAndPrompts at h
  repeat' split at h
  all_goals first
  | (simp only [Prod.mk.injEq, PipeResult.ok.injEq] at h
     obtain ⟨h1, h2⟩ := h
     subst h1
     subst h2
     exact ⟨rfl, rfl, rfl, rfl⟩)
  | simp at h

/-- Reading back the key just appended to the ledger. -/
theorem kvLookup_append_last (ledger : List (String × StoredRecord)) (id : String)
    (r : StoredRecord) : kvLookup (ledger ++ [(id, r)]) id = some r := by
  unfold kvLookup
  rw [List.reverse_append]
  simp

/-- Evaluation of the scenario's segmentation. -/
theorem exSegment_eval : segment exContent = ["Good day", "Bad day"] := by decide

/-- Evaluation of the scenario's retry trace: the success is kept, the three
failures drain the countdown and let the loop exit. -/
theorem exRetry_eval :
    runRetry retryInit exOutcomes
      = some ⟨0, some ⟨some exContent, "gpt-4-vision-0613", 1234⟩,
             some "OpenAI failed: boomC"⟩ := by decide

/-- Evaluation of the scenario's sentence scoring. -/
theorem exScoreAll_eval :
    scoreAll exClassify "distilbert-sst-2" 0 none ["Good day", "Bad day"]
      = .ok [exSent1, exSent2] := by
  norm_num [scoreAll, scoreSentence, exClassify, _text, findScore, effectiveThreshold,
    numTruthy, List.find?, Except.map, exSent1, exSent2,
    show (("NEGATIVE" : String) == "NEGATIVE") = true from rfl,
    show (("NEGATIVE" : String) == "POSITIVE") = false from rfl,
    show (("POSITIVE" : String) == "POSITIVE") = true from rfl,
    show ¬(("Bad day" : String) = "Good day") from by decide]

/-- Full evaluation of the scenario's pipeline run: it completes, returns
the assembled record, and the world gains exactly one `pending` ledger entry
and one queued id. -/
theorem exRun_eval :
    imageAnalysisAndPrompts "req1" (some "sk-key") [] "env-key" exCfg none exOutcomes
        exClassify 1700000000000 (some "203.0.113.7")
        "https://inputs.yinyang.computerpho.be/img.png" "https://example.com/cat.png"
        ⟨[], []⟩
      = (.ok exRecord, ⟨[("req1", ⟨exRecord, "pending"⟩)], ["req1"]⟩) := by
  unfold imageAnalysisAndPrompts
  rw [exRetry_eval]
  simp only [keyFalsy, resolveOpenaiKey, List.contains, exCfg, exRecord,
    exSegment_eval, exScoreAll_eval,
    show ((some "sk-key" : Option String) == none) = false from rfl,
    show (("sk-key" : String) == "") = false from rfl,
    show (exContent = "") = False from by decide]
  rfl

/-- C1 counterexample: a submission whose pipeline reaches the finalize step
writes its single ledger record with status "pending" — not the claimed
terminal "complete" — and nothing in this code ever rewrites it. -/
theorem C1_counterexample :
    (imageAnalysisAndPrompts "req1" (some "sk-key") [] "env-key" exCfg none exOutcomes
        exClassify 1700000000000 (some "203.0.113.7")
        "https://inputs.yinyang.computerpho.be/img.png" "https://example.com/cat.png"
        ⟨[], []⟩).1 = .ok exRecord
    ∧ (imageAnalysisAndPrompts "req1" (some "sk-key") [] "env-key" exCfg none exOutcomes
        exClassify 1700000000000 (some "203.0.113.7")
        "https://inputs.yinyang.computerpho.be/img.png" "https://example.com/cat.png"
        ⟨[], []⟩).2.ledger.map (fun p => p.2.status) = ["pending"]
    ∧ ("pending" : String) ≠ "complete" := by
  refine ⟨?_, ?_, by decide⟩
  · rw [exRun_eval]
  · rw [exRun_eval]
    rfl

/-- C1 amended: when the pipeline reaches its final step it appends to the
ledger exactly one Request Record (with the full assembled structure) under
status "pending" — not a terminal status — then enqueues the request id;
this code performs no further write to the record, leaving finalization to
the external queue consumer, so the record stays "pending" in this ledger. -/
theorem C1_single_pending_write (requestId : String) (hdrKey : Option String)
    (allowBuiltIns : List (Option String)) (envKey : String) (cfg : Config)
    (thresholdModHdr : Option ℚ) (outcomes : List VisionOutcome)
    (classify : String → String → Option (List ClassScore)) (now : Nat)
    (ip : Option String) (url originalUrl : String) (w : World)
    (record : ReqRecord) (w' : World)
    (h : imageAnalysisAndPrompts requestId hdrKey allowBuiltIns envKey cfg
        thresholdModHdr outcomes classify now ip url originalUrl w = (.ok record, w')) :
    w'.ledger = w.ledger ++ [(requestId, ⟨record, "pending"⟩)]
    ∧ w'.queue = w.queue ++ [requestId]
    ∧ kvLookup w'.ledger requestId = some ⟨record, "pending"⟩
    ∧ record.requestId = requestId := by
  obtain ⟨hid, -, -, hw⟩ := pipeline_ok_inv requestId hdrKey allowBuiltIns envKey cfg
    thresholdModHdr outcomes classify now ip url originalUrl w record w' h
  subst hw
  exact ⟨rfl, rfl, kvLookup_append_last w.ledger requestId ⟨record, "pending"⟩, hid⟩

/-- C1 witness: the concrete scenario run instantiating the amended claim. -/
theorem C1_single_pending_write_witness :
    (⟨[("req1", ⟨exRecord, "pending"⟩)], ["req1"]⟩ : World).ledger
        = ([] : List (String × StoredRecord)) ++ [("req1", ⟨exRecord, "pending"⟩)]
    ∧ (⟨[("req1", ⟨exRecord, "pending"⟩)], ["req1"]⟩ : World).queue = [] ++ ["req1"]
    ∧ kvLookup (⟨[("req1", ⟨exRecord, "pending"⟩)], ["req1"]⟩ : World).ledger "req1"
        = some ⟨exRecord, "pending"⟩
    ∧ exRecord.requestId = "req1" :=
  C1_single_pending_write "req1" (some "sk-key") [] "env-key" exCfg none exOutcomes
    exClassify 1700000000000 (some "203.0.113.7")
    "https://inputs.yinyang.computerpho.be/img.png" "https://example.com/cat.png"
    ⟨[], []⟩ exRecord ⟨[("req1", ⟨exRecord, "pending"⟩)], ["req1"]⟩ exRun_eval

/-- C8: in every completed record the good and bad prompts are the `". "`
joins of the two buckets obtained by filtering the record's sentences on
their `sentiment.good` flag; the buckets partition the sentences (each
sentence lands in exactly one bucket, by its flag alone) and each bucket
preserves the original order as a sublist. -/
theorem C8_prompt_partition (requestId : String) (hdrKey : Option String)
    (allowBuiltIns : List (Option String)) (envKey : String) (cfg : Config)
    (thresholdModHdr : Option ℚ) (outcomes : List VisionOutcome)
    (classify : String → String → Option (List ClassScore)) (now : Nat)
    (ip : Option String) (url originalUrl : String) (w : World)
    (record : ReqRecord) (w' : World)
    (h : imageAnalysisAndPrompts requestId hdrKey allowBuiltIns envKey cfg
        thresholdModHdr outcomes classify now ip url originalUrl w = (.ok record, w')) :
    record.results.good.prompt = String.intercalate ". "
        ((record.sentences.filter (fun s => s.sentiment.good)).map (fun s => s.sentence))
    ∧ record.results.bad.prompt = String.intercalate ". "
        ((record.sentences.filter (fun s => !s.sentiment.good)).map (fun s => s.sentence))
    ∧ List.Perm (record.sentences.filter (fun s => s.sentiment.good)
        ++ record.sentences.filter (fun s => !s.sentiment.good)) record.sentences
    ∧ List.Sublist (record.sentences.filter (fun s => s.sentiment.good)) record.sentences
    ∧ List.Sublist (record.sentences.filter (fun s => !s.sentiment.good)) record.sentences
    ∧ (∀ s ∈ record.sentences,
        (s ∈ record.sentences.filter (fun s => s.sentiment.good) ↔ s.sentiment.good = true)
        ∧ (s ∈ record.sentences.filter (fun s => !s.sentiment.good)
            ↔ s.sentiment.good = false)) := by
  obtain ⟨-, hres, -, -⟩ := pipeline_ok_inv requestId hdrKey allowBuiltIns envKey cfg
    thresholdModHdr outcomes classify now ip url originalUrl w record w' h
  rw [hres]
  refine ⟨rfl, rfl, List.filter_append_perm _ _, List.filter_sublist _,
    List.filter_sublist _, ?_⟩
  intro s hs
  constructor
  · simp [List.mem_filter, hs]
  · simp [List.mem_filter, hs]

/-- C8 witness: the scenario's completed record instantiates the claim. -/
theorem C8_prompt_partition_witness :
    exRecord.results.good.prompt = String.intercalate ". "
      ((exRecord.sentences.filter (fun s => s.sentiment.good)).map (fun s => s.sentence)) :=
  (C8_prompt_partition "req1" (some "sk-key") [] "env-key" exCfg none exOutcomes
    exClassify 1700000000000 (some "203.0.113.7")
    "https://inputs.yinyang.computerpho.be/img.png" "https://example.com/cat.png"
    ⟨[], []⟩ exRecord ⟨[("req1", ⟨exRecord, "pending"⟩)], ["req1"]⟩ exRun_eval).1

/-- Helper for C9: one failing scoring call rejects the whole `Promise.all`. -/
theorem scoreAll_error_of_mem (classify : String → String → Option (List ClassScore))
    (model : String) (threshold : ℚ) (thresholdMod : Option ℚ)
    (frags : List String) (frag : String) (hmem : frag ∈ frags) (e0 : String)
    (hfail : scoreSentence classify model threshold thresholdMod frag = .error e0) :
    ∃ e, scoreAll classify model threshold thresholdMod frags = .error e := by
  induction frags with
  | nil => cases hmem
  | cons f rest ih =>
    rcases List.mem_cons.mp hmem with heq | hmem'
    · subst heq
      refine ⟨e0, ?_⟩
      unfold scoreAll
      rw [hfail]
    · rcases hf : scoreSentence classify model threshold thresholdMod f with e' | r
      · refine ⟨e', ?_⟩
        unfold scoreAll
        rw [hf]
      · obtain ⟨e, he⟩ := ih hmem'
        refine ⟨e, ?_⟩
        unfold scoreAll
        rw [hf, he]

/-- C9: if any single sentence-scoring call fails — including a classifier
response lacking the NEGATIVE or POSITIVE label — the whole request aborts
with the terminal `Sentiment failed` (ScoringFailed) error and the world is
untouched: no ledger record and no partial sentiment results are ever
published. -/
theorem C9_scoring_failure_aborts (requestId : String) (hdrKey : Option String)
    (allowBuiltIns : List (Option String)) (envKey : String) (cfg : Config)
    (thresholdModHdr : Option ℚ) (outcomes : List VisionOutcome)
    (classify : String → String → Option (List ClassScore)) (now : Nat)
    (ip : Option String) (url originalUrl : String) (w : World)
    (hkey : keyFalsy (resolveOpenaiKey hdrKey allowBuiltIns envKey) = false)
    (st : RetrySt) (hretry : runRetry retryInit outcomes = some st)
    (vs : VisionSuccess) (hresp : st.response = some vs)
    (content : String) (hcontent : vs.content = some content) (hne : ¬content = "")
    (frag : String) (hmem : frag ∈ segment content) (e0 : String)
    (hfail : scoreSentence classify cfg.textClassModel cfg.goodThreshold
        thresholdModHdr frag = .error e0) :
    ∃ e, imageAnalysisAndPrompts requestId hdrKey allowBuiltIns envKey cfg
        thresholdModHdr outcomes classify now ip url originalUrl w
      = (.scoringFailed ("Sentiment failed: " ++ e), w) := by
  obtain ⟨e, he⟩ := scoreAll_error_of_mem classify cfg.textClassModel cfg.goodThreshold
    thresholdModHdr (segment content) frag hmem e0 hfail
  refine ⟨e, ?_⟩
  unfold imageAnalysisAndPrompts
  rw [hretry]
  simp [hkey, hresp, hcontent, hne, he]

/-- C9 witness: a classifier response missing the NEGATIVE label on the
first fragment aborts the concrete run with the ScoringFailed error. -/
theorem C9_scoring_failure_aborts_witness :
    ∃ e, imageAnalysisAndPrompts "req1" (some "sk-key") [] "env-key" exCfg none
        exOutcomes exBadClassify 1700000000000 (some "203.0.113.7")
        "https://inputs.yinyang.computerpho.be/img.png" "https://example.com/cat.png"
        ⟨[], []⟩
      = (.scoringFailed ("Sentiment failed: " ++ e), ⟨[], []⟩) :=
  C9_scoring_failure_aborts "req1" (some "sk-key") [] "env-key" exCfg none
    exOutcomes exBadClassify 1700000000000 (some "203.0.113.7")
    "https://inputs.yinyang.computerpho.be/img.png" "https://example.com/cat.png"
    ⟨[], []⟩ (by decide)
    ⟨0, some ⟨some exContent, "gpt-4-vision-0613", 1234⟩, some "OpenAI failed: boomC"⟩
    (by decide) ⟨some exContent, "gpt-4-vision-0613", 1234⟩ rfl exContent rfl
    (by decide) "Good day" (by decide) "TypeError: missing NEGATIVE or POSITIVE label"
    (by decide)

end Yinyang
